import Mathlib

/-!
Verification of the provider registry and runner framework of the
featureform serving core (package `provider`, file provider.go, plus the
runner layer exercised by create_transformation_test.go).

Modelling conventions:
* Go byte payloads produced and consumed by encoding/json are modelled at
  the granularity of JSON parsing: a payload is either `malformed raw`
  (any byte sequence that the JSON scanner rejects, including the empty
  payload) or `json j` (any byte sequence that parses to the JSON value
  `j`).  The repository never inspects payload bytes except through
  json.Marshal / json.Unmarshal, so this is the exact boundary it sees.
* Go struct marshalling is modelled through an explicit reflection layer
  (`GoField`, `marshalField`, `marshalStruct`): encoding/json encodes the
  exported fields of a struct in declaration order and skips unexported
  fields; it fails on field kinds it does not support (func, chan, ...).
  A `Serialized` method that would panic on a marshal error is modelled
  as returning `none`.
* Go multiple return values `(T, error)` are modelled as
  `Option T × Option GoError` (nil-able value, nil-able error), and
  methods that mutate their receiver and return `error` are modelled as
  `Except GoError` of the updated receiver.
-/

namespace FF

abbrev GoError := String

/-- A JSON value, the image of a byte payload under Go JSON parsing. -/
inductive Json where
  | null
  | bool (b : Bool)
  | num (n : Int)
  | str (s : String)
  | arr (items : List Json)
  | obj (fields : List (String × Json))

/-- Field lookup in a JSON object.  Go json decoding processes keys in
order, a later duplicate key overwriting an earlier one, so the last
binding wins. -/
def lookupField (fs : List (String × Json)) (name : String) : Option Json :=
  fs.foldl (fun acc p => if p.1 = name then some p.2 else acc) none

/-- The gocql consistency levels (gocql.Consistency); the valid values of
the `Consistency` field of `CassandraConfig`. -/
inductive Consistency where
  | anyLevel
  | one
  | two
  | three
  | quorum
  | allLevel
  | localQuorum
  | eachQuorum
  | localOne
deriving DecidableEq

/-- gocql Consistency.String / MarshalText: the wire name of a level. -/
def Consistency.toName : Consistency → String
  | .anyLevel => "ANY"
  | .one => "ONE"
  | .two => "TWO"
  | .three => "THREE"
  | .quorum => "QUORUM"
  | .allLevel => "ALL"
  | .localQuorum => "LOCAL_QUORUM"
  | .eachQuorum => "EACH_QUORUM"
  | .localOne => "LOCAL_ONE"

/-- gocql Consistency.UnmarshalText: parse a wire name back to a level. -/
def Consistency.ofName : String → Option Consistency
  | "ANY" => some .anyLevel
  | "ONE" => some .one
  | "TWO" => some .two
  | "THREE" => some .three
  | "QUORUM" => some .quorum
  | "ALL" => some .allLevel
  | "LOCAL_QUORUM" => some .localQuorum
  | "EACH_QUORUM" => some .eachQuorum
  | "LOCAL_ONE" => some .localOne
  | _ => none

/-- The kinds of Go values that occur as struct fields in this package,
as seen by encoding/json reflection.  `unsupported` stands for the field
kinds json.Marshal rejects (func, chan, complex, cyclic pointers). -/
inductive GoField where
  | str (s : String)
  | int (n : Int)
  | consistency (c : Consistency)
  | unsupported (kind : String)

/-- encoding/json on a single struct field value. `Consistency` encodes
through its MarshalText method as its wire name. -/
def marshalField : GoField → Except GoError Json
  | .str s => .ok (.str s)
  | .int n => .ok (.num n)
  | .consistency c => .ok (.str c.toName)
  | .unsupported kind => .error ("json: unsupported type: " ++ kind)

/-- encoding/json on a struct: encode the exported fields in declaration
order into a JSON object; fail if any field fails. -/
def marshalStruct (fields : List (String × GoField)) : Except GoError Json := do
  let encoded ← fields.mapM (fun p => (marshalField p.2).map (fun j => (p.1, j)))
  pure (.obj encoded)

/-- A serialized configuration payload ([]byte), up to JSON parsing:
`malformed raw` is any byte sequence the JSON scanner rejects (the empty
payload included), `json j` any byte sequence parsing to `j`. -/
inductive SerializedConfig where
  | malformed (raw : String)
  | json (j : Json)

/-- json.Unmarshal of an object field into a Go string field: an absent
field or a JSON null leaves the current value, a JSON string overwrites
it, any other JSON value is a type error. -/
def decodeStringField (fs : List (String × Json)) (name : String) (cur : String) :
    Except GoError String :=
  match lookupField fs name with
  | none => .ok cur
  | some .null => .ok cur
  | some (.str s) => .ok s
  | some _ => .error ("json: cannot unmarshal value into Go struct field " ++ name)

/-- json.Unmarshal of an object field into a Go int field. -/
def decodeIntField (fs : List (String × Json)) (name : String) (cur : Int) :
    Except GoError Int :=
  match lookupField fs name with
  | none => .ok cur
  | some .null => .ok cur
  | some (.num n) => .ok n
  | some _ => .error ("json: cannot unmarshal value into Go struct field " ++ name)

/-- json.Unmarshal of an object field into a gocql.Consistency field,
through its UnmarshalText method. -/
def decodeConsistencyField (fs : List (String × Json)) (name : String) (cur : Consistency) :
    Except GoError Consistency :=
  match lookupField fs name with
  | none => .ok cur
  | some .null => .ok cur
  | some (.str s) =>
      match Consistency.ofName s with
      | some c => .ok c
      | none => .error ("invalid consistency " ++ s)
  | some _ => .error ("json: cannot unmarshal value into Go struct field " ++ name)

/-- RedisConfig (provider.go lines 39-44): four exported fields. -/
structure RedisConfig where
  Prefix : String
  Addr : String
  Password : String
  DB : Int
deriving DecidableEq

/-- DynamodbConfig (provider.go lines 46-50): three exported fields. -/
structure DynamodbConfig where
  Prefix : String
  Addr : String
  Region : String
deriving DecidableEq

/-- CassandraConfig (provider.go lines 68-73).  `keyspace` and `session`
are unexported (lower-case) Go fields; `session` is a *gocql.Session
pointer, modelled by its address (`none` is the nil pointer). -/
structure CassandraConfig where
  keyspace : String
  Addr : String
  session : Option Nat
  Consistency : Consistency
deriving DecidableEq

/-- How encoding/json reflection sees a RedisConfig: all four fields are
exported, so all four are encoded, in declaration order. -/
def RedisConfig.reflect (r : RedisConfig) : List (String × GoField) :=
  [("Prefix", .str (RedisConfig.Prefix r)),
   ("Addr", .str r.Addr),
   ("Password", .str r.Password),
   ("DB", .int r.DB)]

/-- How encoding/json reflection sees a DynamodbConfig. -/
def DynamodbConfig.reflect (d : DynamodbConfig) : List (String × GoField) :=
  [("Prefix", .str (DynamodbConfig.Prefix d)),
   ("Addr", .str d.Addr),
   ("Region", .str d.Region)]

/-- How encoding/json reflection sees a CassandraConfig: the unexported
fields `keyspace` and `session` are skipped by the encoder; only `Addr`
and `Consistency` are encoded. -/
def CassandraConfig.reflect (c : CassandraConfig) : List (String × GoField) :=
  [("Addr", .str c.Addr),
   ("Consistency", .consistency (CassandraConfig.Consistency c))]

/-- RedisConfig.Serialized (provider.go lines 52-58): json.Marshal the
receiver; on a marshal error the Go code panics, modelled by `none`. -/
def RedisConfig.Serialized (r : RedisConfig) : Option SerializedConfig :=
  match marshalStruct r.reflect with
  | .ok j => some (.json j)
  | .error _ => none

/-- DynamodbConfig.Serialized (provider.go lines 83-89). -/
def DynamodbConfig.Serialized (d : DynamodbConfig) : Option SerializedConfig :=
  match marshalStruct d.reflect with
  | .ok j => some (.json j)
  | .error _ => none

/-- CassandraConfig.Serialized (provider.go lines 75-81). -/
def CassandraConfig.Serialized (c : CassandraConfig) : Option SerializedConfig :=
  match marshalStruct c.reflect with
  | .ok j => some (.json j)
  | .error _ => none

/-- json.Unmarshal of a JSON value into a RedisConfig receiver: a
non-object (other than null) is a type error; an object sets each
present field, leaving absent ones at their current value. -/
def RedisConfig.unmarshal (r : RedisConfig) (j : Json) : Except GoError RedisConfig :=
  match j with
  | .null => .ok r
  | .obj fs => do
      let pfx ← decodeStringField fs "Prefix" (RedisConfig.Prefix r)
      let addr ← decodeStringField fs "Addr" r.Addr
      let pw ← decodeStringField fs "Password" r.Password
      let db ← decodeIntField fs "DB" r.DB
      pure ⟨pfx, addr, pw, db⟩
  | _ => .error "json: cannot unmarshal value into Go value of type provider.RedisConfig"

/-- json.Unmarshal of a JSON value into a DynamodbConfig receiver. -/
def DynamodbConfig.unmarshal (d : DynamodbConfig) (j : Json) : Except GoError DynamodbConfig :=
  match j with
  | .null => .ok d
  | .obj fs => do
      let pfx ← decodeStringField fs "Prefix" (DynamodbConfig.Prefix d)
      let addr ← decodeStringField fs "Addr" d.Addr
      let region ← decodeStringField fs "Region" d.Region
      pure ⟨pfx, addr, region⟩
  | _ => .error "json: cannot unmarshal value into Go value of type provider.DynamodbConfig"

/-- json.Unmarshal of a JSON value into a CassandraConfig receiver: the
unexported fields `keyspace` and `session` are never set by the decoder
and keep their current values. -/
def CassandraConfig.unmarshal (c : CassandraConfig) (j : Json) : Except GoError CassandraConfig :=
  match j with
  | .null => .ok c
  | .obj fs => do
      let addr ← decodeStringField fs "Addr" c.Addr
      let cons ← decodeConsistencyField fs "Consistency" (CassandraConfig.Consistency c)
      pure ⟨c.keyspace, addr, c.session, cons⟩
  | _ => .error "json: cannot unmarshal value into Go value of type provider.CassandraConfig"

/-- RedisConfig.Deserialize (provider.go lines 60-66): json.Unmarshal the
payload into the receiver, returning its error verbatim.  A malformed
payload fails inside the JSON scanner. -/
def RedisConfig.Deserialize (r : RedisConfig) (config : SerializedConfig) :
    Except GoError RedisConfig :=
  match config with
  | .malformed raw =>
      .error (if raw = "" then "unexpected end of JSON input"
              else "invalid character in JSON input")
  | .json j => r.unmarshal j

/-- DynamodbConfig.Deserialize (provider.go lines 99-105). -/
def DynamodbConfig.Deserialize (d : DynamodbConfig) (config : SerializedConfig) :
    Except GoError DynamodbConfig :=
  match config with
  | .malformed raw =>
      .error (if raw = "" then "unexpected end of JSON input"
              else "invalid character in JSON input")
  | .json j => d.unmarshal j

/-- CassandraConfig.Deserialize (provider.go lines 91-97). -/
def CassandraConfig.Deserialize (c : CassandraConfig) (config : SerializedConfig) :
    Except GoError CassandraConfig :=
  match config with
  | .malformed raw =>
      .error (if raw = "" then "unexpected end of JSON input"
              else "invalid character in JSON input")
  | .json j => c.unmarshal j

/-- The zero value of RedisConfig: the fresh receiver a round-trip
decodes into. -/
def zeroRedis : RedisConfig := ⟨"", "", "", 0⟩

/-- The zero value of DynamodbConfig. -/
def zeroDynamodb : DynamodbConfig := ⟨"", "", ""⟩

/-- The zero value of CassandraConfig: empty keyspace, nil session,
consistency 0x00 = ANY. -/
def zeroCassandra : CassandraConfig := ⟨"", "", none, .anyLevel⟩

/-- provider.Type (provider.go line 137): a backend-type identifier
string. -/
abbrev ProviderType := String

/-- BaseProvider (provider.go lines 114-117). -/
structure BaseProvider where
  ProviderType : ProviderType
  ProviderConfig : SerializedConfig

/-- Modelled from the spec: the transformation kinds named by the
TransformationConfig `Type` field (the tests use SQLTransformation); the
definition of provider.TransformationType is not under src. -/
inductive TransformationType where
  | SQLTransformation
  | DFTransformation
deriving DecidableEq

/-- Modelled from the spec: a resource identifier (the metadata key of a
feature/label resource); provider.ResourceID is not under src. -/
structure ResourceID where
  Name : String
  Variant : String
deriving DecidableEq

/-- Modelled from the spec: a source-name to resource-identifier mapping
used by a transformation; provider.SourceMapping is not under src. -/
structure SourceMapping where
  Template : String
  Source : String
deriving DecidableEq

/-- Modelled from the spec: the backend-native transformation definition
(query text, transformation kind, target resource identifier, source
mappings); provider.TransformationConfig is not under src, its field set
is taken from create_transformation_test.go lines 166-171. -/
structure TransformationConfig where
  TransformationType : TransformationType
  TargetTableID : ResourceID
  Query : String
  SourceMapping : List SourceMapping
deriving DecidableEq

/-- Modelled from the spec: the offline-store capability contract,
restricted to the operations the claims exercise (CreateTransformation /
UpdateTransformation return an error or nil); provider.OfflineStore is
not under src.  `typeName` is the Go concrete type of the implementation,
as %T would print it, for capability-error diagnostics. -/
structure OfflineStore where
  typeName : String
  createTransformation : TransformationConfig → Option GoError
  updateTransformation : TransformationConfig → Option GoError

/-- Modelled from the spec: the online-store capability handle; its
operations are out of the core focus, only its concrete type name is
needed for diagnostics.  provider.OnlineStore is not under src. -/
structure OnlineStore where
  typeName : String

/-- A provider instance: either a bare BaseProvider (no capability), or a
concrete provider supporting the online or the offline capability.
`typeName` is the Go concrete type as %T prints it.  Only BaseProvider is
under src; the concrete variants are modelled from the spec (a variant
supports zero or one or both capabilities, and a missing capability
fails with an error carrying the concrete type). -/
inductive Provider where
  | base (b : BaseProvider)
  | onlineOnly (typeName : String) (b : BaseProvider) (s : OnlineStore)
  | offlineOnly (typeName : String) (b : BaseProvider) (s : OfflineStore)

/-- BaseProvider.AsOnlineStore (provider.go lines 119-121): always nil
plus a capability error carrying the concrete type (%T on a BaseProvider
receiver prints provider.BaseProvider). -/
def BaseProvider.AsOnlineStore (_ : BaseProvider) : Option OnlineStore × Option GoError :=
  (none, some "provider.BaseProvider cannot be used as an OnlineStore")

/-- BaseProvider.AsOfflineStore (provider.go lines 123-125). -/
def BaseProvider.AsOfflineStore (_ : BaseProvider) : Option OfflineStore × Option GoError :=
  (none, some "provider.BaseProvider cannot be used as an OfflineStore")

/-- BaseProvider.Type (provider.go lines 127-129). -/
def BaseProvider.Type (provider : BaseProvider) : FF.ProviderType :=
  provider.ProviderType

/-- BaseProvider.Config (provider.go lines 131-133). -/
def BaseProvider.Config (provider : BaseProvider) : SerializedConfig :=
  provider.ProviderConfig

/-- AsOnlineStore on a provider instance: the base variant answers with
the embedded BaseProvider method (src); a concrete variant lacking the
capability fails with the %T-style error (modelled from the spec). -/
def Provider.AsOnlineStore : Provider → Option OnlineStore × Option GoError
  | .base b => b.AsOnlineStore
  | .onlineOnly _ _ s => (some s, none)
  | .offlineOnly tn _ _ => (none, some (tn ++ " cannot be used as an OnlineStore"))

/-- AsOfflineStore on a provider instance. -/
def Provider.AsOfflineStore : Provider → Option OfflineStore × Option GoError
  | .base b => b.AsOfflineStore
  | .onlineOnly tn _ _ => (none, some (tn ++ " cannot be used as an OfflineStore"))
  | .offlineOnly _ _ s => (some s, none)

/-- provider.Factory (provider.go line 135): a constructor from a
serialized config to a (Provider, error) pair. -/
abbrev Factory := SerializedConfig → Option Provider × Option GoError

/-- The provider registry (provider.go line 139, `factories`): the
process-wide map from type key to factory, modelled as an association
list threaded explicitly through the registry operations; a later binding
for the same key is never inserted, so first-match lookup agrees with the
map. -/
abbrev Registry := List (ProviderType × Factory)

/-- Look up the factory bound to a type key (`factories[t]`). -/
def Registry.lookupFactory (reg : Registry) (t : ProviderType) : Option Factory :=
  match reg with
  | [] => none
  | (k, f) :: rest => if k = t then some f else Registry.lookupFactory rest t

/-- RegisterFactory (provider.go lines 141-147): fail with a duplicate
error if the key is already bound, otherwise insert the binding.  The
error branch returns the registry unchanged, the Go code having mutated
nothing. -/
def RegisterFactory (reg : Registry) (t : ProviderType) (f : Factory) :
    Except GoError Registry :=
  if (reg.lookupFactory t).isSome then
    .error (t ++ " provider factory already exists")
  else
    .ok (reg ++ [(t, f)])

/-- Get (provider.go lines 149-155): look up the factory for the key;
fail with a lookup error if unbound, otherwise return exactly the
factory result. -/
def Get (reg : Registry) (t : ProviderType) (config : SerializedConfig) :
    Option Provider × Option GoError :=
  match reg.lookupFactory t with
  | none => (none, some ("no provider of type: " ++ t))
  | some f => f config

/-- The LocalOnline type key (provider.go line 16 registers it; the
constant itself is not under src, its string value modelled from the
platform naming scheme). -/
def LocalOnline : ProviderType := "LOCAL_ONLINE"

/-- Modelled from the spec: localOnlineStoreFactory (registered in
provider.go line 16, body not under src) constructs an online-only
provider from any config; its AsOfflineStore fails with a capability
error, which is what create_transformation_test.go line 135 relies on. -/
def localOnlineStoreFactory : Factory := fun config =>
  (some (.onlineOnly "*provider.localOnlineStore" ⟨LocalOnline, config⟩
          ⟨"*provider.localOnlineStore"⟩), none)

/-! ## Runner layer

The runner package implementation (runner.go, create_transformation.go)
is not under src; only its test file is.  The definitions below are
modelled from the spec (sections 4.3 and 4.4) and from the shapes the
test file forces (struct literal of CreateTransformationRunner, the
Create / RegisterFactory / factoryMap API, the CreateTransformationConfig
fields). -/

/-- Modelled from the spec: the runner-side serialized job configuration
([]byte), at the same parse granularity as SerializedConfig: a payload
either fails to deserialize (`malformed raw`, including the empty
payload used by create_transformation_test.go line 126) or decodes to the
typed job configuration it was serialized from. -/
inductive RunnerConfig' (α : Type) where
  | malformed (raw : String)
  | payload (value : α)

/-- Modelled from the spec: the transformation job configuration
(create_transformation_test.go lines 130-139 and 163-173): target offline
provider type, that provider's own serialized config, the transformation
definition, and the update-vs-create flag. -/
structure CreateTransformationConfig where
  OfflineType : ProviderType
  OfflineConfig : SerializedConfig
  TransformationConfig : TransformationConfig
  IsUpdate : Bool

/-- The runner.Config byte payload for the transformation job kind. -/
abbrev RunnerConfig := RunnerConfig' CreateTransformationConfig

/-- Modelled from the spec: CreateTransformationConfig.Serialize
(create_transformation_test.go line 117) encodes the job configuration;
encoding a value always succeeds and yields a payload that decodes back
to it. -/
def CreateTransformationConfig.Serialize (c : CreateTransformationConfig) : RunnerConfig :=
  .payload c

/-- Modelled from the spec: deserializing a runner config payload fails
on a malformed payload and recovers the encoded job configuration
otherwise (spec section 4.3 step 1). -/
def CreateTransformationConfig.Deserialize (cfg : RunnerConfig) :
    Except GoError CreateTransformationConfig :=
  match cfg with
  | .malformed _ => .error "failed to deserialize create transformation config"
  | .payload c => .ok c

/-- Modelled from the spec: CreateTransformationRunner
(create_transformation_test.go lines 75-79: offline store, transformation
config, update flag). -/
structure CreateTransformationRunner where
  Offline : OfflineStore
  TransformationConfig : TransformationConfig
  IsUpdate : Bool

/-- Modelled from the spec (section 4.4): the outcome the job body
settles on the watcher: CreateTransformation, or UpdateTransformation
when the update flag is set, called exactly once with the embedded
configuration. -/
def CreateTransformationRunner.jobResult (r : CreateTransformationRunner) : Option GoError :=
  if r.IsUpdate then
    r.Offline.updateTransformation r.TransformationConfig
  else
    r.Offline.createTransformation r.TransformationConfig

/-- Modelled from the spec (sections 4.4 and design note 3): the Watcher
is a single-assignment result cell, written exactly once by the worker;
`result` is the settled terminal outcome (nil for success, the execution
error otherwise). -/
structure Watcher where
  result : Option GoError

/-- Modelled from the spec: Watcher.Wait blocks until the result cell is
settled and returns the stored error; reading the cell never changes
it. -/
def Watcher.Wait (w : Watcher) : Option GoError :=
  w.result

/-- Modelled from the spec (section 4.4): Run launches the job body and
returns a Watcher immediately with a nil error; the watcher eventually
settles on the job result. -/
def CreateTransformationRunner.Run (r : CreateTransformationRunner) :
    Watcher × Option GoError :=
  (⟨r.jobResult⟩, none)

/-- AsOfflineStore through a nil-able provider, as the runner factory
receives one from Get: Go calling a method on a nil interface value
panics, modelled as an error result (this case is unreachable for
well-behaved factories, which return a provider or an error). -/
def asOfflineStoreOf : Option Provider → Option OfflineStore × Option GoError
  | none => (none, some "runtime error: invalid memory address or nil pointer dereference")
  | some p => p.AsOfflineStore

/-- Modelled from the spec (section 4.3): the transformation runner
factory performs, in order: (1) deserialize the payload, failing on
malformed input; (2) resolve the offline provider type through the
provider registry, failing on an unknown type; (3) convert the provider
to an OfflineStore, failing with a capability error; (4) only then
construct the Runner.  Every failure short-circuits with an error and no
Runner. -/
def CreateTransformationRunnerFactory (reg : Registry) (cfg : RunnerConfig) :
    Except GoError CreateTransformationRunner := do
  let runnerConfig ← CreateTransformationConfig.Deserialize cfg
  let (offlineProvider, getErr) :=
    Get reg runnerConfig.OfflineType runnerConfig.OfflineConfig
  match getErr with
  | some e => .error e
  | none =>
    match asOfflineStoreOf offlineProvider with
    | (_, some e) => .error e
    | (none, none) => .error "runtime error: invalid memory address or nil pointer dereference"
    | (some store, none) =>
      .ok ⟨store, runnerConfig.TransformationConfig, runnerConfig.IsUpdate⟩

/-- A runner-factory map entry (runner.go factoryMap, not under src):
job-kind key to runner factory. -/
abbrev RunnerFactoryMap := List (String × (RunnerConfig → Except GoError CreateTransformationRunner))

/-- Look up a runner factory by job kind. -/
def RunnerFactoryMap.lookupKind (m : RunnerFactoryMap) (kind : String) :
    Option (RunnerConfig → Except GoError CreateTransformationRunner) :=
  match m with
  | [] => none
  | (k, f) :: rest => if k = kind then some f else RunnerFactoryMap.lookupKind rest kind

/-- Modelled from the spec (section 4.3): runner.Create looks up the
factory for the job kind, fails with a lookup error if unbound,
otherwise returns exactly the factory result — an error constructs
nothing. -/
def RunnerCreate (m : RunnerFactoryMap) (kind : String) (cfg : RunnerConfig) :
    Except GoError CreateTransformationRunner :=
  match m.lookupKind kind with
  | none => .error ("factory does not exist of job type: " ++ kind)
  | some f => f cfg

/-! ## Watcher state machine -/

/-- Modelled from the spec (section 4.4): the watcher states. -/
inductive WatcherState where
  | running
  | succeeded
  | failed (e : GoError)
deriving DecidableEq

/-- A state is terminal when the job has completed. -/
def WatcherState.isTerminal : WatcherState → Bool
  | .running => false
  | .succeeded => true
  | .failed _ => true

/-- Modelled from the spec: the only transitions of a watcher are from
running into one of the two terminal states. -/
inductive WatcherStep : WatcherState → WatcherState → Prop where
  | completeOk : WatcherStep .running .succeeded
  | completeErr (e : GoError) : WatcherStep .running (.failed e)

/-- The outcome Wait returns once a state is terminal: nil on success,
the stored error on failure (junk value on running, where Wait would
still be blocked). -/
def waitOutcome : WatcherState → Option GoError
  | .running => none
  | .succeeded => none
  | .failed e => some e

/-! ## Theorems -/

/-- A CassandraConfig with a non-empty keyspace and a live session: a
valid configuration value on which the round trip fails. -/
def cassEx : CassandraConfig := ⟨"featureform", "cassandra.local", some 1, .quorum⟩

/-- The payload json.Marshal produces for `cassEx`: only the exported
fields appear. -/
def cassExPayload : SerializedConfig :=
  .json (.obj [("Addr", .str "cassandra.local"), ("Consistency", .str "QUORUM")])

/-- Claim C1 (counterexample): the round-trip law fails for
CassandraConfig.  Serializing `cassEx` drops the unexported `keyspace`
and `session` fields, so deserializing the result into a fresh receiver
yields a value with empty keyspace and nil session, different from
`cassEx`. -/
theorem cassandra_roundtrip_counterexample :
    CassandraConfig.Serialized cassEx = some cassExPayload ∧
    CassandraConfig.Deserialize zeroCassandra cassExPayload =
      .ok ⟨"", "cassandra.local", none, .quorum⟩ ∧
    (⟨"", "cassandra.local", none, .quorum⟩ : CassandraConfig) ≠ cassEx := by
  refine ⟨rfl, rfl, ?_⟩
  decide

/-- Claim C1 (amended): deserializing the result of serializing a valid
configuration value reproduces it exactly for RedisConfig and
DynamodbConfig; for CassandraConfig it reproduces only the exported
fields Addr and Consistency, the unexported keyspace and session fields
of the result being the zero values (empty string, nil). -/
theorem config_roundtrip_amended :
    (∀ r : RedisConfig, ∃ p, RedisConfig.Serialized r = some p ∧
      RedisConfig.Deserialize zeroRedis p = .ok r) ∧
    (∀ d : DynamodbConfig, ∃ p, DynamodbConfig.Serialized d = some p ∧
      DynamodbConfig.Deserialize zeroDynamodb p = .ok d) ∧
    (∀ c : CassandraConfig, ∃ p, CassandraConfig.Serialized c = some p ∧
      CassandraConfig.Deserialize zeroCassandra p =
        .ok ⟨"", c.Addr, none, CassandraConfig.Consistency c⟩) := by
  refine ⟨fun r => ⟨_, rfl, ?_⟩, fun d => ⟨_, rfl, ?_⟩, fun c => ⟨_, rfl, ?_⟩⟩
  · rfl
  · rfl
  · cases h : CassandraConfig.Consistency c <;>
      simp [CassandraConfig.Deserialize, CassandraConfig.unmarshal, CassandraConfig.reflect,
        marshalStruct, marshalField, Consistency.toName, decodeStringField,
        decodeConsistencyField, lookupField, Consistency.ofName, zeroCassandra, h] <;>
      rfl

/-- If a key is unbound in a registry, appending a binding for it makes
lookup find exactly that binding. -/
theorem lookupFactory_append_of_none (reg : Registry) (t : ProviderType) (f : Factory)
    (h : reg.lookupFactory t = none) :
    (reg ++ [(t, f)]).lookupFactory t = some f := by
  induction reg with
  | nil => simp [Registry.lookupFactory]
  | cons hd tl ih =>
      by_cases hk : hd.1 = t
      · exfalso
        simp [Registry.lookupFactory, hk] at h
      · simp only [Registry.lookupFactory, hk, if_false, List.cons_append] at h ⊢
        exact ih h

/-- Claim C2: after RegisterFactory(t, f) succeeds, a second
RegisterFactory(t, g) fails with the duplicate-registration error and
the registry still binds t to f — no silent overwrite. -/
theorem register_factory_duplicate_error (reg reg' : Registry) (t : ProviderType)
    (f g : Factory) (h : RegisterFactory reg t f = .ok reg') :
    RegisterFactory reg' t g = .error (t ++ " provider factory already exists") ∧
    reg'.lookupFactory t = some f := by
  unfold RegisterFactory at h
  by_cases hb : (reg.lookupFactory t).isSome
  · simp [hb] at h
  · simp only [hb, if_false] at h
    cases h
    have hnone : reg.lookupFactory t = none := by
      cases hx : reg.lookupFactory t
      · rfl
      · exact absurd (by simp [hx]) hb
    have hfound := lookupFactory_append_of_none reg t f hnone
    refine ⟨?_, hfound⟩
    unfold RegisterFactory
    simp [hfound]

/-- A factory used only to instantiate the duplicate-registration
theorem: it reports an error for any payload. -/
def firstFactory : Factory := fun _ => (none, some "first factory called")

/-- A second factory for the same key, distinguishable from the first. -/
def secondFactory : Factory := fun config => (some (.base ⟨"REDIS_ONLINE", config⟩), none)

/-- Witness for claim C2 at a concrete registry and key. -/
theorem register_factory_duplicate_error_witness :
    RegisterFactory [("REDIS_ONLINE", firstFactory)] "REDIS_ONLINE" secondFactory =
      .error ("REDIS_ONLINE" ++ " provider factory already exists") ∧
    Registry.lookupFactory [("REDIS_ONLINE", firstFactory)] "REDIS_ONLINE" =
      some firstFactory :=
  register_factory_duplicate_error [] [("REDIS_ONLINE", firstFactory)] "REDIS_ONLINE"
    firstFactory secondFactory rfl

/-- Claim C3: Get on an unbound key returns a nil provider with the
lookup error (no factory is consulted, the result being fixed whatever
the registered factories do); Get on a bound key returns exactly the
factory result, success or error, unchanged. -/
theorem get_lookup_or_propagates (reg : Registry) (t : ProviderType)
    (c : SerializedConfig) :
    (reg.lookupFactory t = none →
      Get reg t c = (none, some ("no provider of type: " ++ t))) ∧
    (∀ f, reg.lookupFactory t = some f → Get reg t c = f c) := by
  constructor
  · intro h
    simp [Get, h]
  · intro f h
    simp [Get, h]

/-- Witness for claim C3: the empty registry rejects a lookup, and a
registry binding LocalOnline hands back exactly the factory result. -/
theorem get_lookup_or_propagates_witness :
    Get [] "MOCK_OFFLINE" (.malformed "") =
      (none, some ("no provider of type: " ++ "MOCK_OFFLINE")) ∧
    Get [(LocalOnline, localOnlineStoreFactory)] LocalOnline (.malformed "") =
      localOnlineStoreFactory (.malformed "") :=
  ⟨(get_lookup_or_propagates [] "MOCK_OFFLINE" (.malformed "")).1 rfl,
   (get_lookup_or_propagates [(LocalOnline, localOnlineStoreFactory)] LocalOnline
      (.malformed "")).2 localOnlineStoreFactory rfl⟩

/-- Claim C4: a BaseProvider answers both capability calls with a nil
store and a non-nil error naming its concrete type
(provider.BaseProvider); no usable-looking store value is ever
returned. -/
theorem base_provider_capability_errors (b : BaseProvider) :
    b.AsOnlineStore =
      (none, some "provider.BaseProvider cannot be used as an OnlineStore") ∧
    b.AsOfflineStore =
      (none, some "provider.BaseProvider cannot be used as an OfflineStore") :=
  ⟨rfl, rfl⟩

/-- Claim C5: with a store whose CreateTransformation always succeeds,
Run returns a watcher with a nil error and Wait on it returns nil; with
a store whose CreateTransformation always fails, Run still returns a
watcher with a nil error and Wait returns a non-nil error. -/
theorem transformation_runner_run_wait (good bad : OfflineStore)
    (cfg : TransformationConfig)
    (hgood : ∀ c, good.createTransformation c = none)
    (hbad : ∀ c, ∃ e, bad.createTransformation c = some e) :
    (∃ w, (CreateTransformationRunner.mk good cfg false).Run = (w, none) ∧
      w.Wait = none) ∧
    (∃ w e, (CreateTransformationRunner.mk bad cfg false).Run = (w, none) ∧
      w.Wait = some e) := by
  constructor
  · refine ⟨_, rfl, ?_⟩
    simpa [Watcher.Wait, CreateTransformationRunner.jobResult] using hgood cfg
  · obtain ⟨e, he⟩ := hbad cfg
    refine ⟨_, e, rfl, ?_⟩
    simpa [Watcher.Wait, CreateTransformationRunner.jobResult] using he

/-- The MockOfflineStore of create_transformation_test.go: every
operation, CreateTransformation included, returns nil. -/
def MockOfflineStore : OfflineStore :=
  ⟨"runner.MockOfflineStore", fun _ => none, fun _ => none⟩

/-- The MockOfflineCreateTransformationFail of
create_transformation_test.go lines 13-72: CreateTransformation always
fails with the fixed error, UpdateTransformation returns nil. -/
def MockOfflineCreateTransformationFail : OfflineStore :=
  ⟨"runner.MockOfflineCreateTransformationFail",
   fun _ => some "could not create training set",
   fun _ => none⟩

/-- The zero TransformationConfig passed by the tests
(provider.TransformationConfig{}). -/
def emptyTransformationConfig : TransformationConfig :=
  ⟨.SQLTransformation, ⟨"", ""⟩, "", []⟩

/-- Witness for claim C5 at the two mock stores of the test file. -/
theorem transformation_runner_run_wait_witness :
    (∃ w, (CreateTransformationRunner.mk MockOfflineStore
        emptyTransformationConfig false).Run = (w, none) ∧ w.Wait = none) ∧
    (∃ w e, (CreateTransformationRunner.mk MockOfflineCreateTransformationFail
        emptyTransformationConfig false).Run = (w, none) ∧ w.Wait = some e) :=
  transformation_runner_run_wait MockOfflineStore MockOfflineCreateTransformationFail
    emptyTransformationConfig (fun _ => rfl)
    (fun _ => ⟨"could not create training set", rfl⟩)

/-- The provider registry visible to the runner tests: LocalOnline bound
to its (online-only) factory. -/
def testProviderRegistry : Registry := [(LocalOnline, localOnlineStoreFactory)]

/-- The runner factory map after the registration in
create_transformation_test.go line 142. -/
def testRunnerFactoryMap : RunnerFactoryMap :=
  [("TEST_CREATE_TRANSFORMATION", CreateTransformationRunnerFactory testProviderRegistry)]

/-- Claim C6: with the transformation factory bound to a job kind,
Create for that kind fails synchronously with an error and no Runner on
every pre-flight failure: (1) every empty or malformed payload fails
with the deserialization error; (2) every payload naming an offline
type unbound in the provider registry fails with that lookup error;
(3) every payload whose offline type resolves to a provider lacking the
offline-store capability fails with that capability error.  In each
case the factory short-circuits before any job body exists to run. -/
theorem create_transformation_factory_short_circuit (reg : Registry)
    (m : RunnerFactoryMap) (kind : String)
    (hm : m.lookupKind kind = some (CreateTransformationRunnerFactory reg)) :
    (∀ raw, RunnerCreate m kind (.malformed raw) =
      .error "failed to deserialize create transformation config") ∧
    (∀ ctc : CreateTransformationConfig,
      reg.lookupFactory ctc.OfflineType = none →
      RunnerCreate m kind (CreateTransformationConfig.Serialize ctc) =
        .error ("no provider of type: " ++ ctc.OfflineType)) ∧
    (∀ (ctc : CreateTransformationConfig) (p : Provider) (e : GoError),
      Get reg ctc.OfflineType ctc.OfflineConfig = (some p, none) →
      p.AsOfflineStore = (none, some e) →
      RunnerCreate m kind (CreateTransformationConfig.Serialize ctc) = .error e) := by
  refine ⟨fun raw => ?_, fun ctc hlook => ?_, fun ctc p e hget hcap => ?_⟩
  · simp [RunnerCreate, hm, CreateTransformationRunnerFactory,
      CreateTransformationConfig.Deserialize, Bind.bind, Except.bind]
  · simp [RunnerCreate, hm, CreateTransformationRunnerFactory,
      CreateTransformationConfig.Deserialize, CreateTransformationConfig.Serialize,
      Get, hlook, Bind.bind, Except.bind]
  · simp [RunnerCreate, hm, CreateTransformationRunnerFactory,
      CreateTransformationConfig.Deserialize, CreateTransformationConfig.Serialize,
      hget, asOfflineStoreOf, hcap, Bind.bind, Except.bind]

/-- Witness for claim C6 at the registry and factory map of the test
file, at its three error configs: the empty payload, the unregistered
type Invalid_Offline_type, and LocalOnline whose provider is
online-only. -/
theorem create_transformation_factory_short_circuit_witness :
    RunnerCreate testRunnerFactoryMap "TEST_CREATE_TRANSFORMATION" (.malformed "") =
      .error "failed to deserialize create transformation config" ∧
    RunnerCreate testRunnerFactoryMap "TEST_CREATE_TRANSFORMATION"
      (CreateTransformationConfig.Serialize
        ⟨"Invalid_Offline_type", .malformed "", emptyTransformationConfig, false⟩) =
      .error ("no provider of type: " ++ "Invalid_Offline_type") ∧
    RunnerCreate testRunnerFactoryMap "TEST_CREATE_TRANSFORMATION"
      (CreateTransformationConfig.Serialize
        ⟨LocalOnline, .malformed "", emptyTransformationConfig, false⟩) =
      .error ("*provider.localOnlineStore" ++ " cannot be used as an OfflineStore") :=
  ⟨(create_transformation_factory_short_circuit testProviderRegistry
      testRunnerFactoryMap "TEST_CREATE_TRANSFORMATION" rfl).1 "",
   (create_transformation_factory_short_circuit testProviderRegistry
      testRunnerFactoryMap "TEST_CREATE_TRANSFORMATION" rfl).2.1
      ⟨"Invalid_Offline_type", .malformed "", emptyTransformationConfig, false⟩ rfl,
   (create_transformation_factory_short_circuit testProviderRegistry
      testRunnerFactoryMap "TEST_CREATE_TRANSFORMATION" rfl).2.2
      ⟨LocalOnline, .malformed "", emptyTransformationConfig, false⟩
      (.onlineOnly "*provider.localOnlineStore" ⟨LocalOnline, .malformed ""⟩
        ⟨"*provider.localOnlineStore"⟩)
      ("*provider.localOnlineStore" ++ " cannot be used as an OfflineStore") rfl rfl⟩

/-- Claim C7: Deserialize is a total function on payloads, and on every
empty or malformed payload it returns a non-nil deserialization error,
for each of the three config kinds; no input reaches a panic. -/
theorem deserialize_malformed_total_error (raw : String) (r : RedisConfig)
    (d : DynamodbConfig) (c : CassandraConfig) :
    (∃ e, r.Deserialize (.malformed raw) = .error e) ∧
    (∃ e, d.Deserialize (.malformed raw) = .error e) ∧
    (∃ e, c.Deserialize (.malformed raw) = .error e) :=
  ⟨⟨_, rfl⟩, ⟨_, rfl⟩, ⟨_, rfl⟩⟩

/-- Claim C8: once a watcher state is terminal, no sequence of watcher
transitions changes it — the state never reverts to running — and hence
Wait observes the same outcome on every later call. -/
theorem watcher_terminal_stable (s t : WatcherState) (h : s.isTerminal = true)
    (hsteps : Relation.ReflTransGen WatcherStep s t) :
    t = s ∧ waitOutcome t = waitOutcome s := by
  induction hsteps with
  | refl => exact ⟨rfl, rfl⟩
  | tail _ hbc ih =>
      rcases ih with ⟨rfl, -⟩
      cases hbc <;> simp [WatcherState.isTerminal] at h

/-- Witness for claim C8 at a concrete failed watcher staying put. -/
theorem watcher_terminal_stable_witness :
    (WatcherState.failed "could not create training set").isTerminal = true ∧
    ((WatcherState.failed "could not create training set") =
        WatcherState.failed "could not create training set" ∧
      waitOutcome (WatcherState.failed "could not create training set") =
        waitOutcome (WatcherState.failed "could not create training set")) :=
  ⟨rfl, watcher_terminal_stable (.failed "could not create training set")
    (.failed "could not create training set") rfl Relation.ReflTransGen.refl⟩

/-- Claim C9: a provider built over BaseProvider with declared type t and
serialized config c answers Type() with exactly t and Config() with
exactly c, the same payload it was built from; the capability accessors
take the provider by value and mutate nothing, so no intervening call
changes this. -/
theorem base_provider_type_config (t : ProviderType) (c : SerializedConfig) :
    (BaseProvider.mk t c).Type = t ∧ (BaseProvider.mk t c).Config = c :=
  ⟨rfl, rfl⟩

/-- Claim C10: Serialized on RedisConfig and DynamodbConfig always
returns a payload — the marshal step succeeds on every value because
every reflected field is a supported kind (string, int), so the panic
branch (modelled by `none`) is unreachable. -/
theorem serialized_total (r : RedisConfig) (d : DynamodbConfig) :
    (∃ p, r.Serialized = some p) ∧ (∃ p, d.Serialized = some p) :=
  ⟨⟨_, rfl⟩, ⟨_, rfl⟩⟩

end FF
